import Mathlib

/-!
Verification development for the `matching-interim-api` repository.

The repository ships a PostgreSQL schema (`init_db.sql`) and a vanilla-JS
frontend (`frontend/js/{config,api,app,auth,upload,matching,results}.js`).
The Python matching engine itself (`matching_engine.py`, `app/`) is not part
of the shipped sources; where a property depends on it, the corresponding
definition is modelled from the specification and marked as such in its doc
comment.

This file shallowly embeds the relevant parts:
  * a small JSON value model for the request/response payloads the frontend
    builds and reads;
  * `MatchingManager` from `frontend/js/matching.js` (run trigger, request
    construction, response consumption, simulated progress bar);
  * `UploadManager.validateFile` / `handleFileSelect` from
    `frontend/js/upload.js` together with the constants of
    `frontend/js/config.js`;
  * `ResultsManager.processMatchings` / `applyFilters` / `clearFilters` from
    `frontend/js/results.js`;
  * the `matchings` table of `init_db.sql`: its CHECK constraint, its
    `UNIQUE(besoin_id, candidat_id)` constraint and its three
    `ON DELETE CASCADE` foreign keys.
-/

namespace MatchingInterim

/-- JSON values, as the frontend constructs and consumes them.  Objects are
association lists read with first-match lookup, matching JS property access
on the parsed payloads used here. -/
inductive Json where
  | jnull : Json
  | jbool : Bool → Json
  | jnum : Int → Json
  | jstr : String → Json
  | jarr : List Json → Json
  | jobj : List (String × Json) → Json

/-- First-match key lookup in a JSON object body (JS property read). -/
def jsonLookup (obj : List (String × Json)) (k : String) : Option Json :=
  match obj with
  | [] => none
  | (k', v) :: rest => if k' = k then some v else jsonLookup rest k

/-- `x.f || d` on a numeric field: the field's number when present (and the
payloads read here carry plain numbers), the default otherwise. -/
def getNumD (v : Option Json) (d : Int) : Int :=
  match v with
  | some (Json.jnum n) => n
  | _ => d

/-! ## MatchingManager (frontend/js/matching.js) -/

/-- `this.config` of `MatchingManager` (matching.js constructor): the run
configuration the UI sliders/checkbox/select maintain. -/
structure RunConfig where
  besoin_id : Option Nat
  score_min : Int
  nb_candidats : Int
  use_ai : Bool

/-- The state of `MatchingManager` that the run path touches:
its configuration, the `isRunning` flag and the last stored results. -/
structure MatchingState where
  config : RunConfig
  isRunning : Bool
  results : Option (List (String × Json))

/-- `this.config.besoin_id || null` (matching.js, `requestData`). -/
def jsonOfOptionNat : Option Nat → Json
  | none => Json.jnull
  | some n => Json.jnum n

/-- The `requestData` object built by `MatchingManager.runMatching`
(matching.js): `besoin_id`, `use_ai`, the literal `force_refresh: true`, and
the override grouped under the key `config`. -/
def buildRequestData (cfg : RunConfig) : List (String × Json) :=
  [ ("besoin_id", jsonOfOptionNat cfg.besoin_id),
    ("use_ai", Json.jbool cfg.use_ai),
    ("force_refresh", Json.jbool true),
    ("config", Json.jobj
      [ ("score_min", Json.jnum cfg.score_min),
        ("nb_candidats", Json.jnum cfg.nb_candidats) ]) ]

/-- The counts `MatchingManager.runMatching` reads from the run response to
build its summary message: `response.besoins_processed || 0`,
`response.matchings_created || 0`, and the raw `response.duration_ms`. -/
def runSummaryCounts (resp : List (String × Json)) : Int × Int × Option Json :=
  ( getNumD (jsonLookup resp "besoins_processed") 0,
    getNumD (jsonLookup resp "matchings_created") 0,
    jsonLookup resp "duration_ms" )

/-- One atomic step of `MatchingManager.runMatching` (matching.js): if
`isRunning` is already `true` the call only shows a toast and returns; if the
user cancels the `confirm` dialog it returns; otherwise the run executes
(setting `isRunning` for its duration, storing the response, and resetting
`isRunning` in the `finally` block).  The returned `Bool` records whether a
run was started. -/
def runMatching (s : MatchingState) (confirmOk : Bool)
    (resp : List (String × Json)) : MatchingState × Bool :=
  if s.isRunning then (s, false)
  else if confirmOk = false then (s, false)
  else ({ s with results := some resp, isRunning := false }, true)

/-- The fixed `(percent, text)` steps of `MatchingManager.simulateProgress`
(matching.js). -/
def progressSteps : List (Nat × String) :=
  [ (10, "Initialisation..."),
    (25, "Chargement des candidats..."),
    (40, "Chargement des besoins..."),
    (60, "Analyse des compétences..."),
    (75, "Calcul des scores..."),
    (90, "Génération des résultats..."),
    (95, "Finalisation...") ]

/-- The tick interval of `simulateProgress` (the `setInterval` delay). -/
def progressIntervalMs : Nat := 1500

/-- The `(percent, text)` updates emitted by `simulateProgress` after a given
number of timer ticks.  The interval callback in the source closes over only
the local `steps` array and the `currentStep` counter — it reads nothing from
the request, the backend response or any other run state — so the emission
sequence is a function of the tick count alone; the `runState` argument
stands for the backend state of the run and is ignored exactly as the source
ignores it. -/
def simulateProgressEmissions {α : Type} (runState : α) (ticks : Nat) :
    List (Nat × String) :=
  let _ := runState
  progressSteps.take ticks

/-! ## UploadManager (frontend/js/upload.js) and config.js constants -/

/-- `config.ALLOWED_EXTENSIONS` (config.js). -/
def allowedExtensions : List String := [".csv", ".xlsx", ".xls"]

/-- `config.MAX_FILE_SIZE` in megabytes (config.js). -/
def maxFileSizeMB : Nat := 10

/-- A selected file: its name and its size in bytes. -/
structure UploadFile where
  name : String
  size : Nat
  deriving DecidableEq

/-- The component of a character list after its last `'.'` (the whole list
when it contains no `'.'`) — the value of `name.split('.').pop()` in
`UploadManager.validateFile`. -/
def lastDotComponent : List Char → List Char → List Char
  | [], acc => acc
  | c :: cs, acc =>
      if c = '.' then lastDotComponent cs [] else lastDotComponent cs (acc ++ [c])

/-- `'.' + file.name.split('.').pop().toLowerCase()` (upload.js,
`validateFile`); the file names handled here are ASCII, so `toLowerCase`
is per-character ASCII lowercasing. -/
def fileExt (name : String) : String :=
  "." ++ String.mk ((lastDotComponent name.toList []).map Char.toLower)

/-- `UploadManager.validateFile` (upload.js): the extension must be one of
`config.ALLOWED_EXTENSIONS`, and the size in MB (`size / (1024*1024)`) must
not exceed `config.MAX_FILE_SIZE`; each violation shows a toast and rejects. -/
def validateFile (f : UploadFile) : Bool :=
  allowedExtensions.contains (fileExt f.name)
    && !(decide ((maxFileSizeMB : ℚ) < (f.size : ℚ) / (1024 * 1024)))

/-- The `this.files` slots of `UploadManager`. -/
structure UploadFiles where
  candidats : Option UploadFile
  besoins : Option UploadFile
  deriving DecidableEq

/-- The two dropzone types of the upload page. -/
inductive UploadKind where
  | candidats : UploadKind
  | besoins : UploadKind
  deriving DecidableEq

/-- Storing a file in its `this.files[type]` slot. -/
def setFile (s : UploadFiles) (k : UploadKind) (f : UploadFile) : UploadFiles :=
  match k with
  | UploadKind.candidats => { s with candidats := some f }
  | UploadKind.besoins => { s with besoins := some f }

/-- `UploadManager.handleFileSelect` (upload.js), restricted to the stored
upload state: when `validateFile` rejects, the handler returns before
touching `this.files`; otherwise the file is stored in its slot. -/
def handleFileSelect (s : UploadFiles) (f : UploadFile) (k : UploadKind) :
    UploadFiles :=
  if validateFile f then setFile s k f else s

/-! ## The `matchings` table (init_db.sql) -/

/-- A row of the `matchings` table: the `NUMERIC(5,2)` score columns are
modelled as rationals, the UUID key columns as numeric identifiers. -/
structure MatchingRow where
  besoin_id : Nat
  candidat_id : Nat
  client_id : Nat
  score_total : ℚ
  score_competences : ℚ
  score_localisation : ℚ
  score_disponibilite : ℚ
  score_financier : ℚ
  score_experience : ℚ
  rang : Nat
  deriving DecidableEq

/-- The only CHECK constraint on the score columns of `matchings`
(init_db.sql line 141): `score_total BETWEEN 0 AND 100`.  The five sub-score
columns are plain `NUMERIC(5,2)` with no CHECK of their own. -/
def matchingCheck (m : MatchingRow) : Prop :=
  0 ≤ m.score_total ∧ m.score_total ≤ 100

/-- A row of the `besoins` table, restricted to the columns the claims use. -/
structure Besoin where
  id : Nat
  client_id : Nat
  deriving DecidableEq

/-- A row of the `candidats` table, restricted to its key (the table carries
no tenant column: candidates are a shared pool). -/
structure Candidat where
  id : Nat
  deriving DecidableEq

/-- The tables of init_db.sql that the matchings-related claims touch;
`clients` is kept as its list of primary keys. -/
structure Database where
  clients : List Nat
  besoins : List Besoin
  candidats : List Candidat
  matchings : List MatchingRow
  deriving DecidableEq

/-- `DELETE FROM besoins WHERE id = bid` together with the schema's cascade
into `matchings` (`besoin_id ... REFERENCES besoins(id) ON DELETE CASCADE`).
The cascades into `candidatures` and other tables do not touch `matchings`. -/
def deleteBesoin (bid : Nat) (db : Database) : Database :=
  { db with
      besoins := db.besoins.filter (fun b => !(decide (b.id = bid))),
      matchings := db.matchings.filter (fun m => !(decide (m.besoin_id = bid))) }

/-- `DELETE FROM candidats WHERE id = cid` together with the schema's cascade
into `matchings` (`candidat_id ... REFERENCES candidats(id) ON DELETE
CASCADE`). -/
def deleteCandidat (cid : Nat) (db : Database) : Database :=
  { db with
      candidats := db.candidats.filter (fun c => !(decide (c.id = cid))),
      matchings := db.matchings.filter (fun m => !(decide (m.candidat_id = cid))) }

/-- Whether besoin `bid` exists and is owned by client `k`. -/
def besoinOwnedBy (db : Database) (bid k : Nat) : Bool :=
  db.besoins.any (fun b => decide (b.id = bid) && decide (b.client_id = k))

/-- `DELETE FROM clients WHERE id = k` together with the schema's cascades:
the client's `besoins` rows are removed, and a `matchings` row is removed
when its `client_id` is the deleted client — `matchings.client_id` carries
its own `ON DELETE CASCADE` foreign key (init_db.sql line 140) — or when its
besoin was removed by the besoins cascade. -/
def deleteClient (k : Nat) (db : Database) : Database :=
  { clients := db.clients.filter (fun c => !(decide (c = k))),
    besoins := db.besoins.filter (fun b => !(decide (b.client_id = k))),
    candidats := db.candidats,
    matchings := db.matchings.filter
      (fun m => !(decide (m.client_id = k)) && !(besoinOwnedBy db m.besoin_id k)) }

/-- The `UNIQUE(besoin_id, candidat_id)` key of a matchings row. -/
def kOf (m : MatchingRow) : Nat × Nat := (m.besoin_id, m.candidat_id)

/-- The `UNIQUE(besoin_id, candidat_id)` constraint of the `matchings` table
(init_db.sql line 156), as an invariant of the stored rows. -/
def uniquePairs (store : List MatchingRow) : Prop :=
  (store.map kOf).Nodup

/-- Whether the store already holds a row for the `(besoin, candidat)` pair. -/
def containsPair (store : List MatchingRow) (b c : Nat) : Bool :=
  store.any (fun r => decide (r.besoin_id = b) && decide (r.candidat_id = c))

/-- Modelled from the spec: `upsert_match(MatchResult) -> void`, idempotent
on need+candidate — the backend write path (`matching_engine.py` / the
service layer) is not under `src/`; per the spec, persistence performs an
upsert per `(need, candidate)` keyed by the schema's
`UNIQUE(besoin_id, candidat_id)`, replacing the existing record in place
rather than accumulating a second one. -/
def upsertMatch (store : List MatchingRow) (m : MatchingRow) : List MatchingRow :=
  if containsPair store m.besoin_id m.candidat_id then
    store.map (fun r => if kOf r = kOf m then m else r)
  else store ++ [m]

/-- Modelled from the spec: the orchestrator (not under `src/`) creates each
MatchResult carrying the tenant identifier of the need that produced it
("a match always carries the tenant identifier of the need"). -/
def mkMatchResult (need : Besoin) (cand : Candidat)
    (total comp loc disp fin exp : ℚ) (rang : Nat) : MatchingRow :=
  { besoin_id := need.id,
    candidat_id := cand.id,
    client_id := need.client_id,
    score_total := total,
    score_competences := comp,
    score_localisation := loc,
    score_disponibilite := disp,
    score_financier := fin,
    score_experience := exp,
    rang := rang }

/-- Modelled from the spec: repository reads of matches are always scoped by
tenant identifier ("queries for needs/matches are always scoped by tenant
identifier"; the repository layer is not under `src/`). -/
def listMatchesScoped (tenant : Nat) (store : List MatchingRow) :
    List MatchingRow :=
  store.filter (fun m => decide (m.client_id = tenant))

/-- Every row of a list carries the given tenant identifier. -/
def allOwnedBy (tenant : Nat) (l : List MatchingRow) : Prop :=
  ∀ m ∈ l, m.client_id = tenant

/-- No row returned by a query scoped to tenant `a` belongs to tenant `b`. -/
def noCrossTenant (a b : Nat) (store : List MatchingRow) : Prop :=
  ∀ m ∈ listMatchesScoped a store, m.client_id ≠ b

/-! ## ResultsManager (frontend/js/results.js) -/

/-- JS `Math.round`: round to the nearest integer, halves toward
positive infinity. -/
def jsRound (q : ℚ) : Int := ⌊q + 1 / 2⌋

/-- The displayed score `ResultsManager.processMatchings` derives from a
persisted matching row: `Math.round(m.score_total * 100)` (results.js
line 158). -/
def displayedScore (m : MatchingRow) : Int := jsRound (m.score_total * 100)

/-- An entry of `this.results` as built by `processMatchings`, restricted to
the fields the filters read. -/
structure ResultEntry where
  id : Nat
  candidat_nom : String
  poste : String
  score : Int
  rang : Nat
  status : String
  deriving DecidableEq

/-- `this.filters` of `ResultsManager`: the empty string (no filter) is
`none`; a selected score filter value is `some` of its `parseInt`. -/
structure Filters where
  score : Option Int
  status : Option String
  poste : Option String
  deriving DecidableEq

/-- The retention predicate of `ResultsManager.applyFilters` (results.js):
an entry is dropped when its score is below the numeric score filter, or its
status or poste differs from a set status/poste filter. -/
def passesFilters (fl : Filters) (r : ResultEntry) : Bool :=
  (match fl.score with
   | none => true
   | some n => !(decide (r.score < n)))
  && (match fl.status with
      | none => true
      | some st => decide (r.status = st))
  && (match fl.poste with
      | none => true
      | some p => decide (r.poste = p))

/-- The `ResultsManager` state the filter claims touch. -/
structure ResultsState where
  results : List ResultEntry
  filteredResults : List ResultEntry
  currentPage : Nat
  filters : Filters

/-- `ResultsManager.applyFilters` (results.js): recompute `filteredResults`
from `this.results` and reset `currentPage` to 1. -/
def applyFilters (s : ResultsState) : ResultsState :=
  { s with
      filteredResults := s.results.filter (passesFilters s.filters),
      currentPage := 1 }

/-- `ResultsManager.clearFilters` (results.js): clear the three filters and
restore `filteredResults` to a copy of `this.results`. -/
def clearFilters (s : ResultsState) : ResultsState :=
  { s with
      filters := { score := none, status := none, poste := none },
      filteredResults := s.results }

/-- Every entry of a list has score at least `n`. -/
def scoresAtLeast (n : Int) (l : List ResultEntry) : Prop :=
  ∀ r ∈ l, n ≤ r.score

/-- A schema-valid matchings row at the top of the CHECK range:
`score_total = 100`. -/
def row100 : MatchingRow :=
  { besoin_id := 1, candidat_id := 2, client_id := 3,
    score_total := 100, score_competences := 100, score_localisation := 100,
    score_disponibilite := 100, score_financier := 100, score_experience := 100,
    rang := 1 }

/-- Sample stored row for the pair `(besoin 1, candidat 2)`, tenant 9. -/
def mA : MatchingRow :=
  { besoin_id := 1, candidat_id := 2, client_id := 9,
    score_total := 50, score_competences := 50, score_localisation := 50,
    score_disponibilite := 50, score_financier := 50, score_experience := 50,
    rang := 1 }

/-- A re-score of the same pair `(besoin 1, candidat 2)` with new scores. -/
def m2 : MatchingRow :=
  { besoin_id := 1, candidat_id := 2, client_id := 9,
    score_total := 70, score_competences := 70, score_localisation := 70,
    score_disponibilite := 70, score_financier := 70, score_experience := 70,
    rang := 1 }

/-- A matching whose `client_id` (2) differs from the owner (1) of its
besoin — the schema has no constraint tying `matchings.client_id` to the
besoin's `client_id`, so this row is accepted by the database. -/
def m0 : MatchingRow :=
  { besoin_id := 10, candidat_id := 20, client_id := 2,
    score_total := 80, score_competences := 80, score_localisation := 80,
    score_disponibilite := 80, score_financier := 80, score_experience := 80,
    rang := 1 }

/-- A database with two clients, one besoin owned by client 1, one candidat,
and the matching `m0` carrying `client_id = 2`. -/
def db0 : Database :=
  { clients := [1, 2],
    besoins := [{ id := 10, client_id := 1 }],
    candidats := [{ id := 20 }],
    matchings := [m0] }

/-- A results-page state with a numeric score filter of 50 set. -/
def sampleResults : ResultsState :=
  { results :=
      [ { id := 1, candidat_nom := "a", poste := "p", score := 80,
          rang := 1, status := "bon" },
        { id := 2, candidat_nom := "b", poste := "p", score := 30,
          rang := 2, status := "faible" } ],
    filteredResults := [],
    currentPage := 3,
    filters := { score := some 50, status := none, poste := none } }

end MatchingInterim

namespace MatchingInterim

/-- C4: `runMatching` invoked while `isRunning` is `true` performs no state
change and starts no new run. -/
theorem runMatching_rejects_concurrent (s : MatchingState) (confirmOk : Bool)
    (resp : List (String × Json)) (h : s.isRunning = true) :
    runMatching s confirmOk resp = (s, false) := by
  simp [runMatching, h]

/-- Witness for C4 at a concrete in-flight state. -/
theorem runMatching_rejects_concurrent_witness :
    runMatching
        { config := { besoin_id := some 7, score_min := 40,
                      nb_candidats := 5, use_ai := false },
          isRunning := true, results := none }
        true [("besoins_processed", Json.jnum 3)]
      = ({ config := { besoin_id := some 7, score_min := 40,
                       nb_candidats := 5, use_ai := false },
           isRunning := true, results := none }, false) :=
  runMatching_rejects_concurrent _ true _ rfl

/-- C5 counterexample: the summary consumer does not read a field named
`needs_processed` — a response carrying `needs_processed = 7` (and no
`besoins_processed`) is displayed as 0 needs processed. -/
theorem runSummaryCounts_ignores_needs_processed :
    runSummaryCounts
        [ ("needs_processed", Json.jnum 7),
          ("matchings_created", Json.jnum 3),
          ("duration_ms", Json.jnum 1200) ]
      = (0, 3, some (Json.jnum 1200)) ∧ (0 : Int) ≠ 7 :=
  ⟨rfl, by decide⟩

/-- C5 (amended): the consumer reads the processed-needs count under
`besoins_processed` (not `needs_processed`), the created count under
`matchings_created`, and the duration under `duration_ms`; its output depends
on no other field of the response (in particular not on `failures`). -/
theorem runSummaryCounts_reads_besoins_fields (r1 r2 : List (String × Json))
    (h1 : jsonLookup r1 "besoins_processed" = jsonLookup r2 "besoins_processed")
    (h2 : jsonLookup r1 "matchings_created" = jsonLookup r2 "matchings_created")
    (h3 : jsonLookup r1 "duration_ms" = jsonLookup r2 "duration_ms") :
    runSummaryCounts r1 = runSummaryCounts r2
    ∧ ∀ n m d : Int,
        runSummaryCounts
            [ ("besoins_processed", Json.jnum n),
              ("matchings_created", Json.jnum m),
              ("duration_ms", Json.jnum d) ]
          = (n, m, some (Json.jnum d)) := by
  constructor
  · simp [runSummaryCounts, h1, h2, h3]
  · intro n m d
    rfl

/-- Witness for C5 (amended): two concrete responses that agree on the three
consumed fields but differ in `failures` and in an extra `needs_processed`
entry produce the same summary. -/
theorem runSummaryCounts_reads_besoins_fields_witness :
    runSummaryCounts
        [ ("besoins_processed", Json.jnum 2),
          ("matchings_created", Json.jnum 5),
          ("duration_ms", Json.jnum 300),
          ("failures", Json.jarr [Json.jstr "x"]) ]
      = runSummaryCounts
          [ ("besoins_processed", Json.jnum 2),
            ("matchings_created", Json.jnum 5),
            ("duration_ms", Json.jnum 300),
            ("needs_processed", Json.jnum 99) ] :=
  (runSummaryCounts_reads_besoins_fields _ _ rfl rfl rfl).1

/-- C6 counterexample: the request built by `runMatching` carries no key
`override_config` (the override sits under `config`), no key `need_id`
(the target sits under `besoin_id`), and its `force_refresh` field is the
literal `true` rather than a caller-selected value. -/
theorem requestData_no_override_config_key :
    jsonLookup (buildRequestData ⟨some 7, 40, 5, false⟩) "override_config" = none
    ∧ jsonLookup (buildRequestData ⟨some 7, 40, 5, false⟩) "need_id" = none
    ∧ jsonLookup (buildRequestData ⟨some 7, 40, 5, false⟩) "force_refresh"
        = some (Json.jbool true) :=
  ⟨rfl, rfl, rfl⟩

/-- C6 (amended): for every UI configuration, the trigger input has exactly
the keys `besoin_id`, `use_ai`, `force_refresh`, `config`; the per-run
override `{score_min, nb_candidats}` is carried under the key `config` (not
`override_config`); and `force_refresh` is always sent as `true` (the caller
cannot select it). -/
theorem buildRequestData_shape (cfg : RunConfig) :
    (buildRequestData cfg).map Prod.fst
        = ["besoin_id", "use_ai", "force_refresh", "config"]
    ∧ jsonLookup (buildRequestData cfg) "config"
        = some (Json.jobj
            [ ("score_min", Json.jnum cfg.score_min),
              ("nb_candidats", Json.jnum cfg.nb_candidats) ])
    ∧ jsonLookup (buildRequestData cfg) "force_refresh" = some (Json.jbool true)
    ∧ jsonLookup (buildRequestData cfg) "override_config" = none :=
  ⟨rfl, rfl, rfl, rfl⟩

/-- C8: the client-visible progress indicator is a fixed, timed sequence of
steps independent of actual backend state — for any two runs, whatever their
backend responses or contents, the emitted `(percent, text)` updates are
identical at every tick, the full sequence is the seven hard-coded steps, and
the tick interval is the constant 1500 ms. -/
theorem simulateProgress_independent_of_backend {α β : Type}
    (run1 : α) (run2 : β) (ticks : Nat) :
    simulateProgressEmissions run1 ticks = simulateProgressEmissions run2 ticks
    ∧ simulateProgressEmissions run1 7
        = [ (10, "Initialisation..."),
            (25, "Chargement des candidats..."),
            (40, "Chargement des besoins..."),
            (60, "Analyse des compétences..."),
            (75, "Calcul des scores..."),
            (90, "Génération des résultats..."),
            (95, "Finalisation...") ]
    ∧ progressIntervalMs = 1500 :=
  ⟨rfl, rfl, rfl⟩

end MatchingInterim

namespace MatchingInterim

/-- C9: `validateFile` accepts a file iff its extension (the text after the
last dot, compared case-insensitively) is one of `.csv`, `.xlsx`, `.xls` and
its size is at most `MAX_FILE_SIZE` megabytes (10 MB = 10485760 bytes); and
when it rejects, `handleFileSelect` stores nothing — the upload state is
unchanged. -/
theorem validateFile_accepts_iff (f : UploadFile) (s : UploadFiles)
    (k : UploadKind) :
    (validateFile f = true
      ↔ fileExt f.name ∈ allowedExtensions ∧ f.size ≤ 10 * 1024 * 1024)
    ∧ (validateFile f = false → handleFileSelect s f k = s) := by
  have hq : ((f.size : ℚ) / (1024 * 1024) ≤ (maxFileSizeMB : ℚ))
      ↔ f.size ≤ 10 * 1024 * 1024 := by
    rw [div_le_iff₀ (by norm_num : (0 : ℚ) < 1024 * 1024)]
    rw [show ((maxFileSizeMB : ℚ) * (1024 * 1024))
          = ((10 * 1024 * 1024 : Nat) : ℚ) by norm_num [maxFileSizeMB]]
    exact Nat.cast_le
  constructor
  · simp only [validateFile, List.contains, Bool.and_eq_true, List.elem_iff,
      Bool.not_eq_true', decide_eq_false_iff_not, not_lt]
    exact and_congr Iff.rfl hq
  · intro h
    simp [handleFileSelect, h]

/-- Witness for C9: a `.exe` file is rejected and the upload state is left
untouched by `handleFileSelect`. -/
theorem validateFile_accepts_iff_witness :
    validateFile ⟨"report.exe", 1000⟩ = false
    ∧ handleFileSelect ⟨none, none⟩ ⟨"report.exe", 1000⟩ UploadKind.candidats
        = ⟨none, none⟩ := by
  have h : validateFile ⟨"report.exe", 1000⟩ = false := rfl
  exact ⟨h, (validateFile_accepts_iff ⟨"report.exe", 1000⟩ ⟨none, none⟩
    UploadKind.candidats).2 h⟩

end MatchingInterim

namespace MatchingInterim

/-- Rounding an integer-valued rational is the identity. -/
theorem jsRound_intCast (z : ℤ) : jsRound (z : ℚ) = z := by
  unfold jsRound
  rw [Int.floor_int_add]
  norm_num

/-- C1 (evaluation at the failing input): the row `row100` satisfies the
schema's CHECK constraint (`score_total BETWEEN 0 AND 100`), yet the score
the results view derives from it, `Math.round(score_total * 100)`, is 10000
— not a value on the 0-100 scale.  The stored value and the displayed value
are therefore not on the same 0-100 scale. -/
theorem displayedScore_off_scale :
    matchingCheck row100
    ∧ displayedScore row100 = 10000
    ∧ ¬ displayedScore row100 ≤ 100 := by
  have h2 : displayedScore row100 = 10000 := by
    unfold displayedScore
    rw [show (row100.score_total * 100 : ℚ) = ((10000 : ℤ) : ℚ) by
      norm_num [row100]]
    exact jsRound_intCast 10000
  refine ⟨by constructor <;> norm_num [row100, matchingCheck], h2, ?_⟩
  rw [h2]
  decide

/-- C10: `applyFilters` produces a sublist of the loaded results and resets
the current page to 1; when the score filter holds a numeric value `n`,
every retained entry has score at least `n`; and `clearFilters` restores
`filteredResults` to exactly the full loaded list. -/
theorem applyFilters_spec (s : ResultsState) :
    (applyFilters s).filteredResults.Sublist s.results
    ∧ (applyFilters s).currentPage = 1
    ∧ (∀ n : Int, s.filters.score = some n →
        scoresAtLeast n (applyFilters s).filteredResults)
    ∧ (clearFilters s).filteredResults = s.results := by
  refine ⟨List.filter_sublist _, rfl, ?_, rfl⟩
  intro n hn r hr
  simp only [applyFilters, List.mem_filter] at hr
  obtain ⟨-, hp⟩ := hr
  simp only [passesFilters, hn, Bool.and_eq_true, Bool.not_eq_true',
    decide_eq_false_iff_not, not_lt] at hp
  exact hp.1.1

/-- Witness for C10 on a concrete state whose score filter is 50. -/
theorem applyFilters_spec_witness :
    scoresAtLeast 50 (applyFilters sampleResults).filteredResults
    ∧ (applyFilters sampleResults).currentPage = 1 :=
  ⟨(applyFilters_spec sampleResults).2.2.1 50 rfl,
   (applyFilters_spec sampleResults).2.1⟩

/-- C2: on a store satisfying the `UNIQUE(besoin_id, candidat_id)`
constraint, upserting a match preserves the constraint (so at most one
record exists per pair), the upserted record is present afterwards, and —
when the pair already has a record — the upsert updates it in place without
growing the store. -/
theorem upsertMatch_unique (store : List MatchingRow) (m : MatchingRow)
    (h : uniquePairs store) :
    uniquePairs (upsertMatch store m)
    ∧ m ∈ upsertMatch store m
    ∧ (containsPair store m.besoin_id m.candidat_id = true →
        (upsertMatch store m).length = store.length) := by
  have hkey : containsPair store m.besoin_id m.candidat_id = true
      ↔ kOf m ∈ store.map kOf := by
    constructor
    · intro hc
      rw [containsPair, List.any_eq_true] at hc
      obtain ⟨r, hr, hrr⟩ := hc
      rw [Bool.and_eq_true, decide_eq_true_eq, decide_eq_true_eq] at hrr
      refine List.mem_map.mpr ⟨r, hr, ?_⟩
      show (r.besoin_id, r.candidat_id) = (m.besoin_id, m.candidat_id)
      rw [hrr.1, hrr.2]
    · intro hm
      obtain ⟨r, hr, hrk⟩ := List.mem_map.mp hm
      rw [containsPair, List.any_eq_true]
      refine ⟨r, hr, ?_⟩
      rw [Bool.and_eq_true, decide_eq_true_eq, decide_eq_true_eq]
      exact ⟨congrArg Prod.fst hrk, congrArg Prod.snd hrk⟩
  cases hc : containsPair store m.besoin_id m.candidat_id with
  | false =>
      have hup : upsertMatch store m = store ++ [m] := by
        simp [upsertMatch, hc]
      have hnot : kOf m ∉ store.map kOf := fun hmem => by
        simp [hkey.mpr hmem] at hc
      rw [hup]
      refine ⟨?_, ?_, ?_⟩
      · show ((store ++ [m]).map kOf).Nodup
        rw [List.map_append]
        refine h.append (List.nodup_singleton _) ?_
        intro x hx hx'
        rcases List.mem_singleton.mp hx' with rfl
        exact hnot hx
      · exact List.mem_append_right _ (List.mem_singleton_self m)
      · intro ht
        exact absurd ht (by decide)
  | true =>
      have hup : upsertMatch store m
          = store.map (fun r => if kOf r = kOf m then m else r) := by
        simp [upsertMatch, hc]
      obtain ⟨r0, hr0, hrk0⟩ := List.mem_map.mp (hkey.mp hc)
      have hmap :
          ((store.map (fun r => if kOf r = kOf m then m else r)).map kOf)
            = store.map kOf := by
        rw [List.map_map]
        refine List.map_congr_left ?_
        intro r _
        by_cases hk : kOf r = kOf m
        · simp [Function.comp, hk]
        · simp [Function.comp, hk]
      rw [hup]
      refine ⟨?_, ?_, fun _ => ?_⟩
      · show ((store.map (fun r => if kOf r = kOf m then m else r)).map kOf).Nodup
        rw [hmap]
        exact h
      · exact List.mem_map.mpr ⟨r0, hr0, by rw [if_pos hrk0]⟩
      · exact List.length_map _ _

/-- Witness for C2: re-scoring the stored pair `(1, 2)` keeps the store
unique, keeps the new record, and does not grow the store. -/
theorem upsertMatch_unique_witness :
    uniquePairs (upsertMatch [mA] m2)
    ∧ m2 ∈ upsertMatch [mA] m2
    ∧ (upsertMatch [mA] m2).length = [mA].length :=
  have h := upsertMatch_unique [mA] m2 (by
    show ([mA].map kOf).Nodup
    decide)
  ⟨h.1, h.2.1, h.2.2 rfl⟩

/-- C3: a MatchResult is created carrying the tenant identifier of the need
that produced it, a query scoped to tenant `a` returns only rows carrying
`a`, and for distinct tenants `a ≠ b` no row returned by a query scoped to
`a` belongs to `b`. -/
theorem tenantIsolation (need : Besoin) (cand : Candidat)
    (total comp loc disp fin exp : ℚ) (rang : Nat)
    (a b : Nat) (store : List MatchingRow) (hab : a ≠ b) :
    (mkMatchResult need cand total comp loc disp fin exp rang).client_id
        = need.client_id
    ∧ allOwnedBy a (listMatchesScoped a store)
    ∧ noCrossTenant a b store := by
  refine ⟨rfl, ?_, ?_⟩
  · intro m hm
    simp only [listMatchesScoped, List.mem_filter, decide_eq_true_eq] at hm
    exact hm.2
  · intro m hm
    simp only [listMatchesScoped, List.mem_filter, decide_eq_true_eq] at hm
    rw [hm.2]
    exact hab

/-- Witness for C3 with tenants 5 and 6. -/
theorem tenantIsolation_witness :
    (mkMatchResult { id := 10, client_id := 5 } { id := 20 }
        80 80 80 80 80 80 1).client_id = 5
    ∧ allOwnedBy 5 (listMatchesScoped 5 [mA])
    ∧ noCrossTenant 5 6 [mA] :=
  tenantIsolation { id := 10, client_id := 5 } { id := 20 }
    80 80 80 80 80 80 1 5 6 [mA] (by decide)

/-- C7 counterexample: deleting client 2 removes the matching `m0` from
`db0` through the `matchings.client_id ... ON DELETE CASCADE` foreign key,
even though `m0`'s besoin and candidat both survive the deletion — a
deletion path other than the cascade from its need or its candidate. -/
theorem clientCascade_removes_matching :
    db0.matchings = [m0]
    ∧ (deleteClient 2 db0).matchings = []
    ∧ (deleteClient 2 db0).besoins = db0.besoins
    ∧ (deleteClient 2 db0).candidats = db0.candidats :=
  ⟨rfl, rfl, rfl, rfl⟩

/-- C7 (amended): a matching row is removed only by the cascading deletion
of its besoin, of its candidat, or of its client — `matchings.client_id`
also carries `ON DELETE CASCADE` — and each deletion removes exactly the
rows the corresponding cascade names. -/
theorem matching_removal_paths (db : Database) (m : MatchingRow)
    (bid cid k : Nat) :
    (m ∈ (deleteBesoin bid db).matchings
        ↔ m ∈ db.matchings ∧ ¬ m.besoin_id = bid)
    ∧ (m ∈ (deleteCandidat cid db).matchings
        ↔ m ∈ db.matchings ∧ ¬ m.candidat_id = cid)
    ∧ (m ∈ (deleteClient k db).matchings
        ↔ m ∈ db.matchings ∧ ¬ m.client_id = k
            ∧ besoinOwnedBy db m.besoin_id k = false) := by
  refine ⟨?_, ?_, ?_⟩ <;>
    simp [deleteBesoin, deleteCandidat, deleteClient, List.mem_filter,
      Bool.and_eq_true, Bool.not_eq_true', decide_eq_false_iff_not, and_assoc]

end MatchingInterim
